import Mathlib

/-!
# Golden Ear Piano — game engine embedding

Shallow embedding of the game state machine and note-selection/scoring
engine of `src/src/App.tsx` (the `App` component: its `useState` cells
and the callbacks `getAvailableNotes`, `startGame`, `handleKeyPress`,
`playCurrentNote`, plus the raw `setDifficulty` setter and the timers
scheduled with `setTimeout`).

React state cells become fields of `AppState`; the surrounding runtime
(pending `setTimeout` callbacks, the stream of `Math.random()` draws,
and the tones handed to the external audio emitter) becomes `Sys`.
Events are delivered one at a time (single-threaded event loop), so
each handler is a function from `Sys` to `Sys`; timers fire in
time-then-FIFO order, as in the browser event loop.
-/

namespace GoldenEar

/-- App.tsx lines 8–15: `NOTES`, the note-id → frequency table.
Frequencies are embedded as exact rationals. -/
def NOTES : List (String × ℚ) :=
  [("C4", 261.63), ("C#4", 277.18), ("D4", 293.66), ("D#4", 311.13),
   ("E4", 329.63), ("F4", 349.23), ("F#4", 369.99), ("G4", 392.00),
   ("G#4", 415.30), ("A4", 440.00), ("A#4", 466.16), ("B4", 493.88),
   ("C5", 523.25), ("C#5", 554.37), ("D5", 587.33), ("D#5", 622.25),
   ("E5", 659.26), ("F5", 698.46), ("F#5", 739.99), ("G5", 783.99),
   ("G#5", 830.61), ("A5", 880.00), ("A#5", 932.33), ("B5", 987.77)]

/-- App.tsx line 17. -/
def WHITE_KEYS : List String :=
  ["C4", "D4", "E4", "F4", "G4", "A4", "B4",
   "C5", "D5", "E5", "F5", "G5", "A5", "B5"]

/-- App.tsx line 18. -/
def BLACK_KEYS : List String :=
  ["C#4", "D#4", "F#4", "G#4", "A#4", "C#5", "D#5", "F#5", "G#5", "A#5"]

/-- JS property access `NOTES[id]`: `some f` when the id is in the
catalog, `none` for the JS value `undefined`. -/
def lookupNote (id : String) : Option ℚ :=
  NOTES.lookup id

/-- App.tsx line 382: `'idle' | 'playing' | 'waiting'`. -/
inductive GameState
  | idle
  | playing
  | waiting
deriving DecidableEq, Repr

/-- App.tsx line 389: `'easy' | 'medium' | 'hard'`. -/
inductive Difficulty
  | easy
  | medium
  | hard
deriving DecidableEq, Repr

/-- The `useState` cells of `App` (App.tsx lines 380–389), with the
initial values given there. -/
structure AppState where
  score : Nat
  streak : Nat
  gameState : GameState
  currentNote : Option String
  pressedKey : Option String
  correctKey : Option String
  wrongKey : Option String
  targetKey : Option String
  feedback : String
  difficulty : Difficulty
deriving DecidableEq, Repr

/-- Initial values of the `useState` cells (App.tsx lines 380–389). -/
def initialState : AppState :=
  { score := 0, streak := 0, gameState := .idle, currentNote := none,
    pressedKey := none, correctKey := none, wrongKey := none,
    targetKey := none, feedback := "", difficulty := .medium }

/-- The `setTimeout` callbacks of App.tsx, by what they do when they
fire. -/
inductive TimerKind
  | tonePlay (note : String)
  | toWaiting
  | clearPressed
  | correctRestart
  | wrongRestart
deriving DecidableEq, Repr

/-- The engine plus its runtime surroundings: pending timers with
absolute fire times, the tape of `Math.random()` draws (as indices
into the active note list), the tones handed to `playNote`, and
`resolvedIncorrect`, a history flag that is not part of the source's
state: it records whether the current round has been resolved by an
incorrect guess (set in the incorrect branch of `handleKeyPress`,
cleared by `startGame`) and never influences behaviour. -/
structure Sys where
  app : AppState
  now : Nat
  pending : List (Nat × TimerKind)
  tape : List Nat
  tones : List (Option ℚ)
  resolvedIncorrect : Bool
deriving DecidableEq, Repr

/-- Initial system: fresh page load with a given randomness tape. -/
def initSys (tape : List Nat) : Sys :=
  { app := initialState, now := 0, pending := [], tape := tape,
    tones := [], resolvedIncorrect := false }

/-- `setTimeout(cb, delay)`: append a callback firing at `now + delay`. -/
def scheduleT (s : Sys) (delay : Nat) (k : TimerKind) : Sys :=
  { s with pending := s.pending ++ [(s.now + delay, k)] }

/-- App.tsx lines 391–395: `getAvailableNotes`. -/
def getAvailableNotes (d : Difficulty) : List String :=
  match d with
  | .easy => WHITE_KEYS.take 7
  | .medium => WHITE_KEYS
  | .hard => WHITE_KEYS ++ BLACK_KEYS

/-- App.tsx lines 403–420: `startGame`. `Math.floor(Math.random() *
notes.length)` is modelled by consuming one tape entry `r` and using
the index `r % notes.length` (always a valid index; every valid index
is reachable, matching a draw from `[0, 1)`). The `getD` fallback is
unreachable because the note list is non-empty for every difficulty.
The outer `setTimeout` (300 ms) becomes the `tonePlay` timer, whose
firing schedules the inner 500 ms `toWaiting` timer. -/
def startGame (s : Sys) : Sys :=
  let notes := getAvailableNotes s.app.difficulty
  let r := s.tape.headD 0
  let randomNote := notes.getD (r % notes.length) "C4"
  let app := { s.app with
               currentNote := some randomNote,
               gameState := .playing, feedback := "",
               correctKey := none, wrongKey := none, targetKey := none }
  scheduleT { s with
              app := app, tape := s.tape.tail,
              resolvedIncorrect := false }
    300 (.tonePlay randomNote)

/-- App.tsx lines 422–452: `handleKeyPress`. Guessing is a no-op
unless `gameState === 'waiting'`; otherwise the pressed marker is set,
`playNote(NOTES[note])` is requested, the 200 ms pressed-clear timer
is scheduled, and the guess is resolved against `currentNote`
(`note === currentNote` holds exactly when `currentNote` is
`some note`). This definition totalizes the `playNote` call, so it is
exact for note ids in the catalog — the only ids the piano keys and
the keyboard map can deliver; for an id absent from the catalog the
real call throws before the branch runs, which `handleKeyPressE`
below models. -/
def handleKeyPress (s : Sys) (note : String) : Sys :=
  if s.app.gameState ≠ .waiting then s
  else
    let s1 := { s with
                app := { s.app with pressedKey := some note },
                tones := s.tones ++ [lookupNote note] }
    let s2 := scheduleT s1 200 .clearPressed
    if s2.app.currentNote = some note then
      let app := { s2.app with
                   correctKey := some note,
                   score := s2.app.score + 10 * (s2.app.streak + 1),
                   streak := s2.app.streak + 1,
                   feedback := "✓ PERFECT!" }
      scheduleT { s2 with app := app } 1200 .correctRestart
    else
      let app := { s2.app with
                   wrongKey := some note,
                   targetKey := s2.app.currentNote,
                   streak := 0,
                   feedback := "✗ It was " ++ s2.app.currentNote.getD "null" }
      scheduleT { s2 with app := app, resolvedIncorrect := true }
        2000 .wrongRestart

/-- Errors that can surface from the guess path. `typeError` is the
`TypeError` the Web Audio API throws when
`oscillator.frequency.setValueAtTime` receives a non-finite value.
`unknownNote` follows the spec's words (section 7: the `UnknownNote`
kind for ids absent from the catalog): it is declared only so the
spec's error contract can be compared with the code's behaviour — no
operation of the model ever constructs it. -/
inductive JsError
  | typeError
  | unknownNote (id : String)
deriving DecidableEq, Repr

/-- App.tsx lines 21–39, `playNote`, with its failure mode modelled.
The argument is the raw JS value handed over (`NOTES[note]`, possibly
`undefined`). Line 30, `oscillator.frequency.setValueAtTime`, rejects
a non-finite value — WebIDL converts `undefined` to NaN — by throwing
a `TypeError` before the oscillator is started; a present frequency
plays normally and is returned for logging. -/
def playNoteE : Option ℚ → Except JsError ℚ
  | none => .error .typeError
  | some f => .ok f

/-- App.tsx lines 422–452 again, now with the failure path of the
`playNote(NOTES[note])` call at line 426 modelled instead of
totalized: for a note id absent from the catalog the call throws (see
`playNoteE`) after `setPressedKey(note)` has been issued at line 425
but before the pressed-clear timer is scheduled and before the
correct/incorrect branch, so the handler aborts there. The result is
the state the session is left in (the enqueued pressed marker
survives the throw; nothing after the call ran) paired with the
surfaced error, `none` when the handler completed. On catalog notes
this coincides with `handleKeyPress` (`handleKeyPressE_known`). -/
def handleKeyPressE (s : Sys) (note : String) : Sys × Option JsError :=
  if s.app.gameState ≠ .waiting then (s, none)
  else
    let s0 := { s with app := { s.app with pressedKey := some note } }
    match playNoteE (lookupNote note) with
    | .error e => (s0, some e)
    | .ok f =>
      let s1 := { s0 with tones := s0.tones ++ [some f] }
      let s2 := scheduleT s1 200 .clearPressed
      if s2.app.currentNote = some note then
        let app := { s2.app with
                     correctKey := some note,
                     score := s2.app.score + 10 * (s2.app.streak + 1),
                     streak := s2.app.streak + 1,
                     feedback := "✓ PERFECT!" }
        (scheduleT { s2 with app := app } 1200 .correctRestart, none)
      else
        let app := { s2.app with
                     wrongKey := some note,
                     targetKey := s2.app.currentNote,
                     streak := 0,
                     feedback := "✗ It was " ++ s2.app.currentNote.getD "null" }
        (scheduleT { s2 with app := app, resolvedIncorrect := true }
          2000 .wrongRestart, none)

/-- App.tsx lines 397–401: `playCurrentNote` (the REPLAY button);
`if (currentNote) playNote(NOTES[currentNote])`. -/
def playCurrentNote (s : Sys) : Sys :=
  match s.app.currentNote with
  | none => s
  | some n => { s with tones := s.tones ++ [lookupNote n] }

/-- App.tsx lines 389 and 577–579: the difficulty "operation" handed
to the UI is the raw state setter `setDifficulty`, with no state
guard. -/
def setDifficultySys (s : Sys) (d : Difficulty) : Sys :=
  { s with app := { s.app with difficulty := d } }

/-- App.tsx lines 307–327 (`GameUI`): the difficulty buttons are
rendered only inside the `gameState === 'idle'` block. -/
def difficultyControlsRendered (a : AppState) : Bool :=
  a.gameState = .idle

/-- What each `setTimeout` callback does when it fires (App.tsx lines
414–419, 428, 436–439, 446–450). -/
def fireKind (s : Sys) (k : TimerKind) : Sys :=
  match k with
  | .tonePlay n =>
      scheduleT { s with tones := s.tones ++ [lookupNote n] } 500 .toWaiting
  | .toWaiting =>
      { s with app := { s.app with gameState := .waiting } }
  | .clearPressed =>
      { s with app := { s.app with pressedKey := none } }
  | .correctRestart =>
      startGame { s with app := { s.app with correctKey := none } }
  | .wrongRestart =>
      startGame { s with
                  app := { s.app with
                           wrongKey := none,
                           targetKey := none } }

/-- Remove the pending timer with the least fire time (first scheduled
wins ties, as in the browser timer queue). -/
def popEarliest : List (Nat × TimerKind) →
    Option ((Nat × TimerKind) × List (Nat × TimerKind))
  | [] => none
  | p :: rest =>
    match popEarliest rest with
    | none => some (p, [])
    | some (q, rest') =>
        if p.1 ≤ q.1 then some (p, rest) else some (q, p :: rest')

/-- Fire the earliest pending timer (no-op when none is pending). -/
def fireNext (s : Sys) : Sys :=
  match popEarliest s.pending with
  | none => s
  | some ((t, k), rest) =>
      fireKind { s with now := t, pending := rest } k

/-- One externally-driven step of the running app: a click on BEGIN or
a difficulty button (both rendered only in the idle state), a piano
key press (the 3D keys and the keyboard mapping are always live;
`handleKeyPress` itself guards), a REPLAY click, or the firing of the
earliest pending timer. -/
inductive Step : Sys → Sys → Prop
  | begin_ (s : Sys) (h : s.app.gameState = .idle) : Step s (startGame s)
  | press (s : Sys) (n : String) : Step s (handleKeyPress s n)
  | replay (s : Sys) : Step s (playCurrentNote s)
  | setDiff (s : Sys) (d : Difficulty) (h : s.app.gameState = .idle) :
      Step s (setDifficultySys s d)
  | fire (s : Sys) : Step s (fireNext s)

/-- States reachable from a fresh page load. -/
inductive Reachable : Sys → Prop
  | init (tape : List Nat) : Reachable (initSys tape)
  | step {s s' : Sys} : Reachable s → Step s s' → Reachable s'

/-- A concrete reachable state: BEGIN is clicked on a fresh load with
tape `[0, 1, 2]` (round 1 target `"C4"` at difficulty `medium`), the
tone timer and the waiting timer fire. The engine is now `waiting`
with score 0 and streak 0. -/
def sysWaiting : Sys := fireNext (fireNext (startGame (initSys [0, 1, 2])))

/-- A concrete reachable state with streak 2: from `sysWaiting`, the
correct note is guessed twice in a row, letting the pressed-clear and
restart timers and the new round's timers fire in between; the engine
is `waiting` for round 3 (target `"E4"`) with score 30 and streak 2. -/
def sysStreak2 : Sys :=
  fireNext (fireNext (fireNext (fireNext (handleKeyPress
    (fireNext (fireNext (fireNext (fireNext (handleKeyPress sysWaiting "C4")))))
    "D4"))))

/-- A concrete reachable state for the stale-timer scenario: from
`sysWaiting` (round 1 target `"C4"`), two incorrect guesses (`"D4"`
then `"E4"`) are both accepted, each scheduling a `wrongRestart` timer
at 2800 ms; the two pressed-clear timers and the first `wrongRestart`
fire, so round 2 (target `"D4"`) has just started while the second,
stale `wrongRestart` from round 1 is still pending. -/
def c8AfterRestart : Sys :=
  fireNext (fireNext (fireNext
    (handleKeyPress (handleKeyPress sysWaiting "D4") "E4")))

/-- The C9 invariant: while the current round has not been resolved by
an incorrect guess, the exposed target highlight is empty. -/
def targetHiddenInv (s : Sys) : Prop :=
  s.resolvedIncorrect = false → s.app.targetKey = none

/-! ## Helper lemmas -/

/-- Indexing a non-empty list at `r % length` with a fallback always
yields a member of the list. -/
theorem getD_mod_mem (l : List String) (hl : l ≠ []) (r : Nat) (d : String) :
    l.getD (r % l.length) d ∈ l := by
  have hlen : 0 < l.length := List.length_pos.mpr hl
  have hlt : r % l.length < l.length := Nat.mod_lt _ hlen
  rw [List.getD_eq_getElem?_getD, List.getElem?_eq_getElem hlt]
  exact List.getElem_mem hlt

/-- Outside the waiting state, `handleKeyPress` returns the system
unchanged. -/
theorem handleKeyPress_not_waiting (s : Sys) (n : String)
    (h : s.app.gameState ≠ .waiting) : handleKeyPress s n = s := by
  simp [handleKeyPress, h]

/-- On catalog notes the tone call succeeds, so the failure-aware
handler completes and agrees with the total `handleKeyPress`. -/
theorem handleKeyPressE_known (s : Sys) (n : String) (f : ℚ)
    (hf : lookupNote n = some f) :
    handleKeyPressE s n = (handleKeyPress s n, none) := by
  by_cases hw : s.app.gameState = .waiting
  · by_cases hc : s.app.currentNote = some n <;>
      simp [handleKeyPressE, handleKeyPress, playNoteE, scheduleT, hf, hw, hc]
  · simp [handleKeyPressE, handleKeyPress, playNoteE, hf, hw]

/-- `startGame` clears the target highlight and the history flag, so
it establishes the C9 invariant outright. -/
theorem startGame_targetHiddenInv (s : Sys) : targetHiddenInv (startGame s) :=
  fun _ => rfl

/-- `handleKeyPress` preserves the C9 invariant: a correct guess
touches neither the target highlight nor the history flag, and an
incorrect guess sets the history flag. -/
theorem handleKeyPress_targetHiddenInv (s : Sys) (n : String)
    (h : targetHiddenInv s) : targetHiddenInv (handleKeyPress s n) := by
  by_cases hw : s.app.gameState = .waiting
  · by_cases hc : s.app.currentNote = some n
    · simpa [targetHiddenInv, handleKeyPress, scheduleT, hw, hc] using h
    · simp [targetHiddenInv, handleKeyPress, scheduleT, hw, hc]
  · rw [handleKeyPress_not_waiting s n hw]
    exact h

/-- `playCurrentNote` preserves the C9 invariant (it only logs a
tone). -/
theorem playCurrentNote_targetHiddenInv (s : Sys)
    (h : targetHiddenInv s) : targetHiddenInv (playCurrentNote s) := by
  unfold playCurrentNote
  split
  · exact h
  · exact fun hr => h hr

/-- `fireNext` preserves the C9 invariant: the tone, waiting and
pressed-clear timers touch neither field, and both restart timers run
`startGame`, which re-establishes it. -/
theorem fireNext_targetHiddenInv (s : Sys)
    (h : targetHiddenInv s) : targetHiddenInv (fireNext s) := by
  unfold fireNext
  split
  · exact h
  · rename_i p k rest heq
    cases k with
    | tonePlay n => exact fun hr => h hr
    | toWaiting => exact fun hr => h hr
    | clearPressed => exact fun hr => h hr
    | correctRestart => exact fun _ => rfl
    | wrongRestart => exact fun _ => rfl

/-- Every reachable state satisfies the C9 invariant. -/
theorem reachable_targetHiddenInv (s : Sys) (h : Reachable s) :
    targetHiddenInv s := by
  induction h with
  | init tape => exact fun _ => rfl
  | step hprev st ih =>
    rename_i s1 s2
    cases st with
    | begin_ hidle => exact startGame_targetHiddenInv s1
    | press n => exact handleKeyPress_targetHiddenInv s1 n ih
    | replay => exact playCurrentNote_targetHiddenInv s1 ih
    | setDiff d hidle => exact fun hr => ih hr
    | fire => exact fireNext_targetHiddenInv s1 ih

/-! ## Claim theorems -/

/-- C1: for every correct guess submitted while the game is in the
waiting state (the guessed note id equals the current round target),
if the streak was `s` before the guess, then after the guess the score
has increased by exactly `10 * (s + 1)` and the streak equals
`s + 1`. -/
theorem correct_guess_scoring (s : Sys) (n : String)
    (hw : s.app.gameState = .waiting) (ht : s.app.currentNote = some n) :
    (handleKeyPress s n).app.score = s.app.score + 10 * (s.app.streak + 1) ∧
    (handleKeyPress s n).app.streak = s.app.streak + 1 := by
  simp [handleKeyPress, scheduleT, hw, ht]

/-- Witness for C1: in the concrete waiting state `sysWaiting` (target
`"C4"`, score 0, streak 0), guessing `"C4"` yields score 10 and
streak 1. -/
theorem correct_guess_scoring_witness :
    sysWaiting.app.gameState = .waiting ∧
    sysWaiting.app.currentNote = some "C4" ∧
    (handleKeyPress sysWaiting "C4").app.score =
      sysWaiting.app.score + 10 * (sysWaiting.app.streak + 1) ∧
    (handleKeyPress sysWaiting "C4").app.streak = sysWaiting.app.streak + 1 :=
  ⟨rfl, rfl,
   (correct_guess_scoring sysWaiting "C4" rfl rfl).1,
   (correct_guess_scoring sysWaiting "C4" rfl rfl).2⟩

/-- C2: for every incorrect guess submitted while the game is in the
waiting state, the streak is reset to 0, the score is unchanged, the
target note becomes the revealed highlight, and the feedback text
includes the correct note identifier. -/
theorem incorrect_guess_effects (s : Sys) (n t : String)
    (hw : s.app.gameState = .waiting) (ht : s.app.currentNote = some t)
    (hne : n ≠ t) :
    (handleKeyPress s n).app.streak = 0 ∧
    (handleKeyPress s n).app.score = s.app.score ∧
    (handleKeyPress s n).app.targetKey = some t ∧
    ∃ pre, (handleKeyPress s n).app.feedback = pre ++ t := by
  have hc : ¬ (s.app.currentNote = some n) := by
    rw [ht]
    simp [Ne.symm hne]
  refine ⟨?_, ?_, ?_, "✗ It was ", ?_⟩ <;>
    simp [handleKeyPress, scheduleT, hw, hc, ht, Ne.symm hne]

/-- Witness for C2: in `sysWaiting` (target `"C4"`), guessing `"D4"`
resets the streak, keeps the score, reveals `"C4"` as the target
highlight and mentions `"C4"` in the feedback. -/
theorem incorrect_guess_effects_witness :
    sysWaiting.app.gameState = .waiting ∧
    sysWaiting.app.currentNote = some "C4" ∧
    "D4" ≠ "C4" ∧
    ((handleKeyPress sysWaiting "D4").app.streak = 0 ∧
     (handleKeyPress sysWaiting "D4").app.score = sysWaiting.app.score ∧
     (handleKeyPress sysWaiting "D4").app.targetKey = some "C4" ∧
     ∃ pre, (handleKeyPress sysWaiting "D4").app.feedback = pre ++ "C4") :=
  ⟨rfl, rfl, by decide,
   incorrect_guess_effects sysWaiting "D4" "C4" rfl rfl (by decide)⟩

/-- C3: in every game state other than waiting, submitting a guess is
a no-op: the whole system (scores, highlights, feedback, pending
timers, tone log) is returned unchanged. -/
theorem guess_outside_waiting_noop (s : Sys) (n : String)
    (h : s.app.gameState ≠ .waiting) : handleKeyPress s n = s :=
  handleKeyPress_not_waiting s n h

/-- Witness for C3: on the fresh idle state, guessing `"C4"` changes
nothing. -/
theorem guess_outside_waiting_noop_witness :
    (initSys []).app.gameState ≠ GameState.waiting ∧
    handleKeyPress (initSys []) "C4" = initSys [] :=
  ⟨by decide, guess_outside_waiting_noop (initSys []) "C4" (by decide)⟩

/-- C4 is violated by the code: an accepted guess leaves the game
state `waiting` (only the scheduled restart timer later leaves it), so
a second guess submitted before the next round's `startGame` executes
is accepted again and mutates the score and streak. In the concrete
run below, guessing the target `"C4"` twice in `sysWaiting` (no timer
fires in between, so no `startGame` has executed) is accepted both
times: the score goes 0 → 10 → 30 and the streak 0 → 1 → 2, and a
second restart timer is scheduled. -/
theorem second_guess_same_round_accepted :
    sysWaiting.app.score = 0 ∧ sysWaiting.app.streak = 0 ∧
    sysWaiting.app.gameState = .waiting ∧
    (handleKeyPress sysWaiting "C4").app.score = 10 ∧
    (handleKeyPress sysWaiting "C4").app.streak = 1 ∧
    (handleKeyPress sysWaiting "C4").app.gameState = .waiting ∧
    (handleKeyPress (handleKeyPress sysWaiting "C4") "C4").app.score = 30 ∧
    (handleKeyPress (handleKeyPress sysWaiting "C4") "C4").app.streak = 2 :=
  ⟨rfl, rfl, rfl, rfl, rfl, rfl, rfl, rfl⟩

/-- Counterexample to C5: `"Z9"` is absent from the catalog, and
submitting it in the reachable waiting state `sysStreak2` (streak 2)
does fail without mutating score or streak — but the surfaced error
is the tone emitter's `TypeError` on the undefined frequency of the
failed lookup, not an `UnknownNote` error: the code has no such kind.
The pressed marker, enqueued before the throw, is left stuck, its
clear timer never scheduled. -/
theorem unknown_note_throws_cex :
    lookupNote "Z9" = none ∧
    sysStreak2.app.gameState = .waiting ∧
    sysStreak2.app.streak = 2 ∧
    (handleKeyPressE sysStreak2 "Z9").2 = some JsError.typeError ∧
    some JsError.typeError ≠ some (JsError.unknownNote "Z9") ∧
    (handleKeyPressE sysStreak2 "Z9").1.app.score = sysStreak2.app.score ∧
    (handleKeyPressE sysStreak2 "Z9").1.app.streak = 2 ∧
    (handleKeyPressE sysStreak2 "Z9").1.app.pressedKey = some "Z9" ∧
    (handleKeyPressE sysStreak2 "Z9").1.pending = sysStreak2.pending :=
  ⟨by decide, rfl, rfl, rfl, by decide, rfl, rfl, rfl, rfl⟩

/-- C5 as amended: submitting a note id absent from the catalog while
in the waiting state fails — with the `TypeError` thrown by the tone
emitter on the undefined frequency of the failed lookup, surfaced to
the caller, rather than a dedicated `UnknownNote` error — and the
score and streak are not mutated; the guess is not resolved (wrong
and target highlights, feedback, timer queue and tone log all
unchanged), and only the pressed marker, enqueued before the throw,
is set, with its clear timer never scheduled. -/
theorem unknown_note_throws_unscored (s : Sys) (n : String)
    (hw : s.app.gameState = .waiting) (hn : lookupNote n = none) :
    (handleKeyPressE s n).2 = some JsError.typeError ∧
    (handleKeyPressE s n).1.app.score = s.app.score ∧
    (handleKeyPressE s n).1.app.streak = s.app.streak ∧
    (handleKeyPressE s n).1.app.wrongKey = s.app.wrongKey ∧
    (handleKeyPressE s n).1.app.targetKey = s.app.targetKey ∧
    (handleKeyPressE s n).1.app.feedback = s.app.feedback ∧
    (handleKeyPressE s n).1.pending = s.pending ∧
    (handleKeyPressE s n).1.tones = s.tones ∧
    (handleKeyPressE s n).1.app.pressedKey = some n := by
  simp [handleKeyPressE, playNoteE, hw, hn]

/-- Witness for the amended C5: submitting `"Z9"` in the reachable
waiting state `sysStreak2`. -/
theorem unknown_note_throws_unscored_witness :
    sysStreak2.app.gameState = .waiting ∧
    lookupNote "Z9" = none ∧
    ((handleKeyPressE sysStreak2 "Z9").2 = some JsError.typeError ∧
     (handleKeyPressE sysStreak2 "Z9").1.app.score = sysStreak2.app.score ∧
     (handleKeyPressE sysStreak2 "Z9").1.app.streak = sysStreak2.app.streak ∧
     (handleKeyPressE sysStreak2 "Z9").1.app.wrongKey = sysStreak2.app.wrongKey ∧
     (handleKeyPressE sysStreak2 "Z9").1.app.targetKey = sysStreak2.app.targetKey ∧
     (handleKeyPressE sysStreak2 "Z9").1.app.feedback = sysStreak2.app.feedback ∧
     (handleKeyPressE sysStreak2 "Z9").1.pending = sysStreak2.pending ∧
     (handleKeyPressE sysStreak2 "Z9").1.tones = sysStreak2.tones ∧
     (handleKeyPressE sysStreak2 "Z9").1.app.pressedKey = some "Z9") :=
  ⟨rfl, by decide,
   unknown_note_throws_unscored sysStreak2 "Z9" rfl (by decide)⟩

/-- C6: every execution of `startGame` selects a target that is a
member of the active difficulty's note set — easy being the 7 white
keys of the first octave, medium all white keys, hard all white and
black keys — stores it as the round target, and clears the
correct/wrong/target highlights and the feedback text. -/
theorem startGame_selects_and_clears (s : Sys) :
    (∃ t, (startGame s).app.currentNote = some t ∧
      t ∈ getAvailableNotes s.app.difficulty) ∧
    (startGame s).app.correctKey = none ∧
    (startGame s).app.wrongKey = none ∧
    (startGame s).app.targetKey = none ∧
    (startGame s).app.feedback = "" ∧
    getAvailableNotes .easy = ["C4", "D4", "E4", "F4", "G4", "A4", "B4"] ∧
    getAvailableNotes .medium = WHITE_KEYS ∧
    getAvailableNotes .hard = WHITE_KEYS ++ BLACK_KEYS := by
  refine ⟨⟨_, rfl, ?_⟩, rfl, rfl, rfl, rfl, by decide, rfl, rfl⟩
  apply getD_mod_mem
  cases s.app.difficulty <;> decide

/-- Counterexample to C7: in the reachable waiting state `sysWaiting`
(difficulty medium, mid-round), the difficulty operation handed to the
UI — the raw setter — changes the active difficulty to hard rather
than rejecting the attempt as a no-op. -/
theorem setDifficulty_mid_round_cex :
    sysWaiting.app.gameState = .waiting ∧
    sysWaiting.app.difficulty = .medium ∧
    (setDifficultySys sysWaiting .hard).app.difficulty = .hard :=
  ⟨rfl, rfl, rfl⟩

/-- C7 as amended: the difficulty operation is an unguarded setter
that always applies the new difficulty, in every game state; mid-round
changes are prevented only by the UI, which renders the difficulty
controls solely in the idle state. -/
theorem setDifficulty_unguarded_idle_ui (s : Sys) (d : Difficulty) :
    (setDifficultySys s d).app.difficulty = d ∧
    (difficultyControlsRendered s.app = true ↔ s.app.gameState = .idle) := by
  refine ⟨rfl, ?_⟩
  simp [difficultyControlsRendered]

/-- C8 is violated by the code: no generation check exists. In the
concrete run reaching `c8AfterRestart`, round 2 (target `"D4"`) has
just been started by the first `wrongRestart` timer while the second
`wrongRestart` — a stale transient-clear timer scheduled by the
earlier round's incorrect guess — is still pending. When that stale
timer fires it is not discarded: it clears the highlight fields and
reruns `startGame`, replacing the new round's target with `"E4"` and
double-scheduling the round's tone; the new round's state is
mutated. -/
theorem stale_timer_mutates_new_round :
    c8AfterRestart.app.currentNote = some "D4" ∧
    c8AfterRestart.app.gameState = .playing ∧
    c8AfterRestart.pending =
      [(2800, TimerKind.wrongRestart), (3100, TimerKind.tonePlay "D4")] ∧
    (fireNext c8AfterRestart).app.currentNote = some "E4" ∧
    (fireNext c8AfterRestart).pending =
      [(3100, TimerKind.tonePlay "D4"), (3100, TimerKind.tonePlay "E4")] :=
  ⟨rfl, rfl, rfl, rfl, rfl⟩

/-- C9: in every reachable state in which the current round has not
been resolved by an incorrect guess, the exposed target highlight is
empty, so the target note is never revealed to the presentation layer
except via the highlight set strictly after an incorrect guess. -/
theorem target_highlight_hidden_unless_incorrect (s : Sys)
    (h : Reachable s) (hr : s.resolvedIncorrect = false) :
    s.app.targetKey = none :=
  reachable_targetHiddenInv s h hr

/-- Witness for C9: the fresh page load is reachable, its round is
unresolved, and its target highlight is empty. -/
theorem target_highlight_hidden_unless_incorrect_witness :
    (initSys []).resolvedIncorrect = false ∧
    (initSys []).app.targetKey = none :=
  ⟨rfl,
   target_highlight_hidden_unless_incorrect (initSys []) (.init []) rfl⟩

/-- C10: changing the difficulty mutates only the difficulty field:
score, streak, game state, the current round's target, the highlight
markers, the feedback text — and the pending timers and tone log —
are all unchanged, so a mid-round change leaves the in-flight round's
target in place until the next round starts. -/
theorem setDifficulty_frame (s : Sys) (d : Difficulty) :
    (setDifficultySys s d).app.difficulty = d ∧
    (setDifficultySys s d).app.score = s.app.score ∧
    (setDifficultySys s d).app.streak = s.app.streak ∧
    (setDifficultySys s d).app.gameState = s.app.gameState ∧
    (setDifficultySys s d).app.currentNote = s.app.currentNote ∧
    (setDifficultySys s d).app.pressedKey = s.app.pressedKey ∧
    (setDifficultySys s d).app.correctKey = s.app.correctKey ∧
    (setDifficultySys s d).app.wrongKey = s.app.wrongKey ∧
    (setDifficultySys s d).app.targetKey = s.app.targetKey ∧
    (setDifficultySys s d).app.feedback = s.app.feedback ∧
    (setDifficultySys s d).pending = s.pending ∧
    (setDifficultySys s d).tones = s.tones :=
  ⟨rfl, rfl, rfl, rfl, rfl, rfl, rfl, rfl, rfl, rfl, rfl, rfl⟩

end GoldenEar
